import Mathlib

/-!
Shallow embedding of kern/thread/synch.c: counting semaphore (P / V),
mutual-exclusion lock (lock_acquire / lock_release / lock_do_i_hold)
and condition variable (cv_wait / cv_signal / cv_broadcast), built on a
single-core kernel where raising the interrupt priority level (splhigh)
gives complete mutual exclusion and thread_sleep / thread_wakeup /
thread_wakeone block and unblock threads on a wait channel keyed by the
address of the primitive.

Modeling conventions:
  - A C pointer argument is `Option α`; `none` is NULL.  An assertion
    failure (kernel panic) is the outcome `Outcome.panic`.
  - The current thread identity (the global `curthread`) is a `Nat`
    passed explicitly to the functions that read it.
  - The global `in_interrupt` flag is a `Nat` passed explicitly to the
    blocking entry points; only the functions whose source reads it
    consult it.
  - Each function yields, besides its result, the list of external
    calls it performs in order (splhigh / splx, thread_sleep,
    thread_wakeup, thread_wakeone, kfree, field writes), so ordering
    and interrupt-bracketing claims are statements about that trace.
  - The kernel `int` count is modeled as an unbounded `Int`; signed
    overflow is undefined behavior in C and outside the model.
  - Because the machine is single-core and every mutation of `count`
    and `lk_holder` in the source happens with the IPL raised, the span
    from a raised IPL to the matching restore (or to a thread_sleep,
    which suspends the thread) executes atomically.  A call therefore
    runs deterministically up to its first thread_sleep; other threads
    act only while the caller is asleep.  Blocking executions are
    modeled by step relations whose environment steps may change the
    shared state arbitrarily while the caller sleeps.
-/

/-- Wait-channel identity: the address of the object slept on.  Claims
here involve one semaphore, one lock and one cv, so three tags suffice. -/
inductive Ident where
  | sem
  | lock
  | cv
deriving DecidableEq, Repr

/-- One external call made by a synch function, in program order. -/
inductive Event where
  | raiseIPL
  | restoreIPL
  | sleep (i : Ident)
  | wakeAll (i : Ident)
  | wakeOne (i : Ident)
  | checkSleepers (n : Nat)
  | freeName (i : Ident)
  | freeObj (i : Ident)
  | setCount (c : Int)
  | setHolder (h : Option Nat)
deriving DecidableEq, Repr

/-- Result of running one call until it returns, blocks or panics.
`panic` is a failed assert; `blocked tr` means the call performed the
events `tr` and is now suspended in thread_sleep; `done res tr` means
the call returned with result state `res` after events `tr`. -/
inductive Outcome (α : Type) where
  | panic
  | blocked (tr : List Event)
  | done (res : α) (tr : List Event)
deriving DecidableEq, Repr

/-- struct semaphore: the name string is diagnostic only and is modeled
by the allocation flags of sem_create; `count` is the mutable state. -/
structure Semaphore where
  count : Int
deriving DecidableEq, Repr

/-- struct lock: `lk_holder` is the owning thread or `none` (NULL). -/
structure Lock where
  lk_holder : Option Nat
deriving DecidableEq, Repr

/-- sem_create (synch.c lines 17-35): two allocations (the record and
the name string) may fail, giving NULL; otherwise the count is set to
`initial_count` with no validation whatsoever. -/
def sem_create (initial_count : Int) (allocOk nameOk : Bool) : Option Semaphore :=
  if allocOk then
    if nameOk then some ⟨initial_count⟩ else none
  else none

/-- sem_destroy (lines 37-58): assert sem non-NULL; under raised IPL
assert thread_hassleepers(sem) == 0; restore IPL; free the name and the
record.  `sleepers` is the value thread_hassleepers returns at the
instant of the check. -/
def sem_destroy (sem : Option Semaphore) (sleepers : Nat) : Outcome Unit :=
  match sem with
  | none => .panic
  | some _ =>
    if sleepers = 0 then
      .done () [.raiseIPL, .checkSleepers sleepers, .restoreIPL,
                .freeName .sem, .freeObj .sem]
    else .panic

/-- P (lines 60-81): assert sem non-NULL; assert in_interrupt == 0;
raise IPL; while count == 0 thread_sleep(sem); assert count > 0;
decrement; restore IPL.  Run until return or first sleep: with the IPL
raised nothing intervenes, so if count is 0 the caller blocks, if count
is positive it decrements and returns, and if count is negative the
while test (count == 0) is false and the assert(count > 0) fires. -/
def P (sem : Option Semaphore) (in_interrupt : Nat) : Outcome Semaphore :=
  match sem with
  | none => .panic
  | some s =>
    if in_interrupt = 0 then
      if s.count = 0 then
        .blocked [.raiseIPL, .sleep .sem]
      else
        if 0 < s.count then
          .done ⟨s.count - 1⟩ [.raiseIPL, .setCount (s.count - 1), .restoreIPL]
        else .panic
    else .panic

/-- V (lines 83-93): assert sem non-NULL; raise IPL; increment count;
assert count > 0; thread_wakeup(sem) (wake ALL sleepers); restore IPL.
The source does not read in_interrupt here. -/
def V (sem : Option Semaphore) : Outcome Semaphore :=
  match sem with
  | none => .panic
  | some s =>
    if 0 < s.count + 1 then
      .done ⟨s.count + 1⟩ [.raiseIPL, .setCount (s.count + 1), .wakeAll .sem, .restoreIPL]
    else .panic

/-- lock_create (lines 99-119): two allocations may fail; otherwise the
lock starts with lk_holder = NULL (unheld). -/
def lock_create (allocOk nameOk : Bool) : Option Lock :=
  if allocOk then
    if nameOk then some ⟨none⟩ else none
  else none

/-- lock_do_i_hold (lines 177-182): a single return of the comparison
lk_holder == curthread.  No NULL check, no IPL manipulation, no calls:
the event trace is empty.  `t` is curthread. -/
def lock_do_i_hold (lock : Lock) (t : Nat) : Bool × List Event :=
  (lock.lk_holder == some t, [])

/-- lock_acquire (lines 131-152), run until return or first sleep:
assert lock non-NULL; raise IPL; while lk_holder != NULL
thread_sleep(lock); then lk_holder := curthread; restore IPL.  The
source reads neither in_interrupt nor anything else before the loop;
the parameter is passed to reflect the global environment the call
runs in.  `t` is curthread. -/
def lock_acquire (lock : Option Lock) (t : Nat) (in_interrupt : Nat) : Outcome Lock :=
  match lock with
  | none => .panic
  | some l =>
    match l.lk_holder with
    | some _ => .blocked [.raiseIPL, .sleep .lock]
    | none => .done ⟨some t⟩ [.raiseIPL, .setHolder (some t), .restoreIPL]

/-- lock_release (lines 154-175): assert lock non-NULL; raise IPL;
lk_holder := NULL; thread_wakeup(lock) (wake ALL sleepers); restore
IPL.  The source never reads curthread here, so the caller identity is
not a parameter: the behavior is the same whoever calls. -/
def lock_release (lock : Option Lock) : Outcome Lock :=
  match lock with
  | none => .panic
  | some _ =>
    .done ⟨none⟩ [.raiseIPL, .setHolder none, .wakeAll .lock, .restoreIPL]

/-- cv_wait (lines 218-233), run until its thread_sleep(cv): assert cv
and lock non-NULL; assert lock_do_i_hold(lock); raise IPL;
lock_release(lock) (which itself raises and restores IPL and wakes the
lock channel); thread_sleep(cv).  The struct cv holds only its name, so
a non-NULL cv is `some ()`.  The source does not read in_interrupt. -/
def cv_wait_enter (cv : Option Unit) (lock : Option Lock) (t : Nat)
    (in_interrupt : Nat) : Outcome Lock :=
  match cv, lock with
  | none, _ => .panic
  | _, none => .panic
  | some _, some l =>
    if (lock_do_i_hold l t).1 then
      .blocked [.raiseIPL, .raiseIPL, .setHolder none, .wakeAll .lock,
                .restoreIPL, .sleep .cv]
    else .panic

/-- cv_signal (lines 235-243): assert cv and lock non-NULL; assert
lock_do_i_hold(lock); thread_wakeone(cv).  The local spl variable is
declared in the source but splhigh / splx are never called: the wake
runs with the IPL untouched. -/
def cv_signal (cv : Option Unit) (lock : Option Lock) (t : Nat) : Outcome Unit :=
  match cv, lock with
  | none, _ => .panic
  | _, none => .panic
  | some _, some l =>
    if (lock_do_i_hold l t).1 then
      .done () [.wakeOne .cv]
    else .panic

/-- cv_broadcast (lines 245-258): assert cv and lock non-NULL; assert
lock_do_i_hold(lock); raise IPL; thread_wakeup(cv) (wake ALL); restore
IPL. -/
def cv_broadcast (cv : Option Unit) (lock : Option Lock) (t : Nat) : Outcome Unit :=
  match cv, lock with
  | none, _ => .panic
  | _, none => .panic
  | some _, some l =>
    if (lock_do_i_hold l t).1 then
      .done () [.raiseIPL, .wakeAll .cv, .restoreIPL]
    else .panic

/-- Full executions of lock_acquire by thread `t`, with interference:
`AcqReach t l fin` holds when a call of lock_acquire that observes lock
state `l` at the top of its while loop can return with the lock in
state `fin`.  `grab` is the loop exiting (lk_holder == NULL) followed
by the assignment lk_holder := curthread, one atomic unit because the
IPL stays raised across test and store on a single core.  `spin` is the
loop body: the holder was non-NULL, the thread slept in
thread_sleep(lock), and while it slept other threads changed the lock
to an arbitrary state `m`; on wakeup the loop re-tests from `m`. -/
inductive AcqReach (t : Nat) : Lock → Lock → Prop where
  | grab (l : Lock) (h : l.lk_holder = none) : AcqReach t l ⟨some t⟩
  | spin (l m fin : Lock) (h : l.lk_holder ≠ none) (rest : AcqReach t m fin) :
      AcqReach t l fin

/-- Full executions of cv_wait by thread `t`: the entry assert
lock_do_i_hold(lock) passes on the initial lock state, the thread
releases the lock and sleeps on the cv channel (cv_wait_enter), other
threads then run arbitrarily leaving the lock in any state `m` by the
time this thread is woken, and the trailing lock_acquire(lock) (source
line 230) runs to completion from `m`.  cv_wait returns exactly when
that acquire returns; the two trailing void casts do nothing. -/
inductive CvWaitRun (t : Nat) : Lock → Lock → Prop where
  | run (l₀ m fin : Lock)
      (hpre : (lock_do_i_hold l₀ t).1 = true)
      (hacq : AcqReach t m fin) :
      CvWaitRun t l₀ fin

/-- One completed semaphore operation, as the embedded P and V compute
it: a `p` step is a P call finishing its decrement (a P that finds
count = 0 sleeps and completes only later, from the count current at
that later moment), a `v` step is a V call.  Panicking runs complete
nothing. -/
inductive SemStep : Int → Int → Prop where
  | p (c d : Int) (tr : List Event) (h : P (some ⟨c⟩) 0 = Outcome.done ⟨d⟩ tr) :
      SemStep c d
  | v (c d : Int) (tr : List Event) (h : V (some ⟨c⟩) = Outcome.done ⟨d⟩ tr) :
      SemStep c d

-- Helper lemmas

/-- A returning P call observed a strictly positive count and
decremented it. -/
theorem P_done_inv (c d : Int) (tr : List Event)
    (h : P (some ⟨c⟩) 0 = Outcome.done ⟨d⟩ tr) : 0 < c ∧ d = c - 1 := by
  by_cases hc : c = 0
  · simp [P, hc] at h
  · by_cases hpos : 0 < c
    · simp only [P, hc, hpos, if_true, if_false, reduceIte,
        Outcome.done.injEq, Semaphore.mk.injEq] at h
      exact ⟨hpos, h.1.symm⟩
    · simp [P, hc, hpos] at h

/-- A returning V call incremented the count to a strictly positive
value. -/
theorem V_done_inv (c d : Int) (tr : List Event)
    (h : V (some ⟨c⟩) = Outcome.done ⟨d⟩ tr) : d = c + 1 ∧ 0 < c + 1 := by
  by_cases hpos : 0 < c + 1
  · simp only [V, hpos, if_true, Outcome.done.injEq, Semaphore.mk.injEq] at h
    exact ⟨h.1.symm, hpos⟩
  · simp [V, hpos] at h

/-- Whenever lock_acquire returns, the final holder is the caller. -/
theorem acqReach_holder (t : Nat) (l fin : Lock) (h : AcqReach t l fin) :
    fin.lk_holder = some t := by
  induction h with
  | grab l h => rfl
  | spin l m fin h rest ih => exact ih

/-- Whenever cv_wait returns, the final holder is the caller: the run
ends with a completed lock_acquire. -/
theorem cvWaitRun_holder (t : Nat) (l fin : Lock) (h : CvWaitRun t l fin) :
    fin.lk_holder = some t := by
  cases h
  exact acqReach_holder t _ fin (by assumption)

-- Claim theorems

/-- C1: every execution of cv_wait whose precondition holds (non-NULL
lock, caller holds it) returns with the caller again the holder of the
paired lock: lock_do_i_hold is true on the lock state at the return
point, regardless of what other threads did while the caller slept. -/
theorem cv_wait_returns_holding_lock (t : Nat) (l₀ fin : Lock)
    (h : CvWaitRun t l₀ fin) : (lock_do_i_hold fin t).1 = true := by
  have hh : fin.lk_holder = some t := cvWaitRun_holder t l₀ fin h
  simp [lock_do_i_hold, hh]

/-- Witness for C1 at thread 0: holder 0 initially; the environment
leaves the lock free by wake time and one grab step reacquires it. -/
theorem cv_wait_returns_holding_lock_witness :
    (lock_do_i_hold ⟨some 0⟩ 0).1 = true :=
  cv_wait_returns_holding_lock 0 ⟨some 0⟩ ⟨some 0⟩
    (CvWaitRun.run ⟨some 0⟩ ⟨none⟩ ⟨some 0⟩ (by decide) (AcqReach.grab ⟨none⟩ rfl))

/-- C2: at a concrete valid call (caller thread 0 holds the lock),
cv_signal performs exactly one external call, thread_wakeone on the cv
channel, with no IPL raise or restore anywhere in its trace, whereas
cv_broadcast brackets its wake-all between a raise and a restore.  The
raise/restore bracketing the claim describes is absent from cv_signal
in the code. -/
theorem cv_signal_wakes_without_ipl_bracket :
    cv_signal (some ()) (some ⟨some 0⟩) 0 = Outcome.done () [Event.wakeOne Ident.cv]
    ∧ Event.raiseIPL ∉ [Event.wakeOne Ident.cv]
    ∧ Event.restoreIPL ∉ [Event.wakeOne Ident.cv]
    ∧ cv_broadcast (some ()) (some ⟨some 0⟩) 0 =
        Outcome.done () [Event.raiseIPL, Event.wakeAll Ident.cv, Event.restoreIPL] := by
  refine ⟨rfl, by decide, by decide, rfl⟩

/-- C3 counterexample: invoked from interrupt context (in_interrupt =
1), lock_acquire on an unheld lock does not fail any assertion: it
runs to completion and writes the holder field, refuting the claim
that every acquire-family operation panics before any state change. -/
theorem lock_acquire_in_interrupt_no_assert :
    lock_acquire (some ⟨none⟩) 0 1 =
      Outcome.done ⟨some 0⟩ [Event.raiseIPL, Event.setHolder (some 0), Event.restoreIPL]
    ∧ lock_acquire (some ⟨none⟩) 0 1 ≠ Outcome.panic := by
  refine ⟨rfl, by decide⟩

/-- C3 amended: P panics from interrupt context before performing any
event, but lock_acquire and cv_wait never consult in_interrupt: their
behavior in interrupt context is identical to their behavior outside
it (no assertion fires). -/
theorem only_P_checks_interrupt_context (s : Semaphore) (l : Lock) (t i : Nat)
    (hi : i ≠ 0) :
    P (some s) i = Outcome.panic
    ∧ lock_acquire (some l) t i = lock_acquire (some l) t 0
    ∧ cv_wait_enter (some ()) (some l) t i = cv_wait_enter (some ()) (some l) t 0 := by
  refine ⟨?_, rfl, rfl⟩
  simp [P, hi]

/-- Witness for the amended C3 at in_interrupt = 1. -/
theorem only_P_checks_interrupt_context_witness :
    P (some ⟨1⟩) 1 = Outcome.panic
    ∧ lock_acquire (some ⟨none⟩) 0 1 = lock_acquire (some ⟨none⟩) 0 0
    ∧ cv_wait_enter (some ()) (some ⟨none⟩) 0 1 =
        cv_wait_enter (some ()) (some ⟨none⟩) 0 0 :=
  only_P_checks_interrupt_context ⟨1⟩ ⟨none⟩ 0 1 (by decide)

/-- C4: from a creation count n ≥ 0, any sequence of completed P and V
operations keeps the count nonnegative: a completed P saw a strictly
positive count before its decrement, and V increments. -/
theorem sem_count_nonneg_invariant (c₀ c : Int) (h₀ : 0 ≤ c₀)
    (h : Relation.ReflTransGen SemStep c₀ c) : 0 ≤ c := by
  induction h with
  | refl => exact h₀
  | tail hab hstep ih =>
    cases hstep with
    | p tr hp =>
      obtain ⟨hbpos, hd⟩ := P_done_inv _ _ _ hp
      omega
    | v tr hv =>
      obtain ⟨hd, hpos⟩ := V_done_inv _ _ _ hv
      omega

/-- Witness for C4: one completed P on a semaphore created with count
1 reaches count 0, still nonnegative. -/
theorem sem_count_nonneg_invariant_witness :
    Relation.ReflTransGen SemStep 1 0 ∧ (0:Int) ≤ 0 := by
  have hchain : Relation.ReflTransGen SemStep 1 0 :=
    Relation.ReflTransGen.single
      (SemStep.p 1 0 [Event.raiseIPL, Event.setCount 0, Event.restoreIPL] (by decide))
  exact ⟨hchain, sem_count_nonneg_invariant 1 0 (by decide) hchain⟩

/-- C5: lock_release on any non-NULL lock, whatever the holder field
holds and whoever calls (the source never reads curthread in release,
so the caller cannot influence it), sets the holder to none and wakes
ALL sleepers on the lock channel inside the IPL bracket; no holder
verification exists, so a non-holder releases exactly as the holder
does, and afterwards no thread holds the lock. -/
theorem lock_release_unconditional (l : Lock) (t : Nat) :
    lock_release (some l) =
      Outcome.done ⟨none⟩ [Event.raiseIPL, Event.setHolder none,
        Event.wakeAll Ident.lock, Event.restoreIPL]
    ∧ (lock_do_i_hold ⟨none⟩ t).1 = false := by
  refine ⟨rfl, by simp [lock_do_i_hold]⟩

/-- C6: on a semaphore satisfying the count ≥ 0 invariant, V returns
after incrementing the count to a strictly positive value (the assert
passes) and waking ALL sleepers on the semaphore channel, the wake
placed strictly inside the raise/restore IPL bracket and the restore
being the last event before V returns. -/
theorem V_increments_then_wakes_all_under_ipl (s : Semaphore) (h : 0 ≤ s.count) :
    V (some s) = Outcome.done ⟨s.count + 1⟩
        [Event.raiseIPL, Event.setCount (s.count + 1),
         Event.wakeAll Ident.sem, Event.restoreIPL]
    ∧ 0 < s.count + 1 := by
  have hpos : 0 < s.count + 1 := by omega
  exact ⟨by simp [V, hpos], hpos⟩

/-- Witness for C6 at count 0. -/
theorem V_increments_then_wakes_all_under_ipl_witness :
    V (some ⟨0⟩) = Outcome.done ⟨0 + 1⟩
        [Event.raiseIPL, Event.setCount (0 + 1),
         Event.wakeAll Ident.sem, Event.restoreIPL]
    ∧ (0:Int) < 0 + 1 :=
  V_increments_then_wakes_all_under_ipl ⟨0⟩ (by decide)

/-- C7: lock_do_i_hold answers true exactly when the holder field is
the calling thread, and makes no external call at all: its event trace
is empty, so it writes no state, never sleeps and never touches the
IPL. -/
theorem lock_do_i_hold_pure_query (l : Lock) (t : Nat) :
    ((lock_do_i_hold l t).1 = true ↔ l.lk_holder = some t)
    ∧ (lock_do_i_hold l t).2 = [] := by
  constructor
  · simp [lock_do_i_hold]
  · rfl

/-- Witness for C7: thread 0 holding the lock. -/
theorem lock_do_i_hold_pure_query_witness :
    (lock_do_i_hold ⟨some 0⟩ 0).1 = true ∧ (lock_do_i_hold ⟨some 0⟩ 0).2 = [] :=
  ⟨(lock_do_i_hold_pure_query ⟨some 0⟩ 0).1.mpr rfl,
   (lock_do_i_hold_pure_query ⟨some 0⟩ 0).2⟩

/-- C8: a freshly created lock is unheld; with no other thread
present, acquire by thread t completes at once taking the lock, the
following release returns it to the unheld state, and afterwards
lock_do_i_hold is false for t — the observable state equals the state
before the acquire. -/
theorem lock_acquire_release_roundtrip (t : Nat) :
    lock_create true true = some ⟨none⟩
    ∧ lock_acquire (some ⟨none⟩) t 0 =
        Outcome.done ⟨some t⟩ [Event.raiseIPL, Event.setHolder (some t), Event.restoreIPL]
    ∧ lock_release (some ⟨some t⟩) =
        Outcome.done ⟨none⟩ [Event.raiseIPL, Event.setHolder none,
          Event.wakeAll Ident.lock, Event.restoreIPL]
    ∧ (lock_do_i_hold ⟨none⟩ t).1 = false := by
  refine ⟨rfl, rfl, rfl, by simp [lock_do_i_hold]⟩

/-- C9: sem_destroy panics exactly when some thread is sleeping on the
semaphore at the instant of its check, a check made with the IPL
raised; with no sleeper it restores the IPL and then frees the name
string and the semaphore record, in that order, and returns. -/
theorem sem_destroy_sleeper_check (s : Semaphore) (n : Nat) :
    (n ≠ 0 → sem_destroy (some s) n = Outcome.panic)
    ∧ (n = 0 → sem_destroy (some s) n =
        Outcome.done () [Event.raiseIPL, Event.checkSleepers 0, Event.restoreIPL,
          Event.freeName Ident.sem, Event.freeObj Ident.sem]) := by
  constructor
  · intro hn
    simp [sem_destroy, hn]
  · intro hn
    subst hn
    rfl

/-- Witness for C9: one sleeper panics, zero sleepers frees. -/
theorem sem_destroy_sleeper_check_witness :
    sem_destroy (some ⟨1⟩) 1 = Outcome.panic
    ∧ sem_destroy (some ⟨1⟩) 0 =
        Outcome.done () [Event.raiseIPL, Event.checkSleepers 0, Event.restoreIPL,
          Event.freeName Ident.sem, Event.freeObj Ident.sem] :=
  ⟨(sem_destroy_sleeper_check ⟨1⟩ 1).1 (by decide),
   (sem_destroy_sleeper_check ⟨1⟩ 0).2 rfl⟩

/-- C10: sem_create validates nothing: with both allocations
succeeding and a negative initial count, it returns a semaphore
carrying that negative count, so the count ≥ 0 invariant is not
established at creation and no assertion fires there; the violation
surfaces only later, when P or V on such a semaphore hits its own
assert and panics. -/
theorem sem_create_accepts_negative (c : Int) (h : c < 0) :
    sem_create c true true = some ⟨c⟩
    ∧ (⟨c⟩ : Semaphore).count < 0
    ∧ P (some ⟨c⟩) 0 = Outcome.panic
    ∧ V (some ⟨c⟩) = Outcome.panic := by
  have hc0 : ¬ c = 0 := by omega
  have hcpos : ¬ 0 < c := by omega
  have hv : ¬ 0 < c + 1 := by omega
  refine ⟨rfl, h, ?_, ?_⟩
  · simp [P, hc0, hcpos]
  · simp [V, hv]

/-- Witness for C10 at initial count -1. -/
theorem sem_create_accepts_negative_witness :
    sem_create (-1) true true = some ⟨-1⟩
    ∧ (⟨-1⟩ : Semaphore).count < 0
    ∧ P (some ⟨-1⟩) 0 = Outcome.panic
    ∧ V (some ⟨-1⟩) = Outcome.panic :=
  sem_create_accepts_negative (-1) (by decide)
